import Mathlib

/-!
Shallow embedding of `src/StockForecast.py` (a Streamlit dashboard for PSX
stock forecasting with Firebase-backed authentication and portfolios).

External services are modelled as explicit parameters:
* the Firestore database is a `DB` value (a list of user documents plus a
  keyed map of portfolio documents), and the mutating operations return the
  new `DB`;
* `hashlib.sha256(...).hexdigest()` is an abstract function parameter
  `sha256_hexdigest : String → String` (the proofs use nothing about it
  beyond it being a function, i.e. deterministic);
* `yfinance` history and the statsmodels SARIMAX fit/forecast calls are
  parameters returning `Except String _`: a `.error e` value models the call
  raising an exception with message `e`;
* Streamlit's `st.session_state` is an association list of string keys, and
  the UI calls (`st.error`, `st.write`, `st.dataframe`, ...) of the
  "Generate Forecast" button handler are collected into a `List (Display α)`
  in the order they run.
Prices are an arbitrary linearly ordered type `α`; dates carry a linear
month index (month-end dates are identified with their month) and a day.
-/

namespace PSXForecast

/-- A document of the `users` collection, with the four fields written by
`register` (StockForecast.py lines 78-83). -/
structure UserDoc where
  email : String
  password : String
  phone : String
  plan : String
deriving DecidableEq

/-- One entry of a portfolio: the dictionary appended by the "Add Stock"
handler (lines 155-161). Monetary amounts are rationals. -/
structure Stock where
  ticker : String
  quantity : Nat
  purchase_value : Rat
  purchase_date : String
  current_value : Rat
deriving DecidableEq

/-- A document of the `portfolios` collection: `stocks := none` models a
document without a `stocks` field (line 99 reads it with `.get("stocks", [])`). -/
structure PortfolioDoc where
  stocks : Option (List Stock)
deriving DecidableEq

/-- The Firestore state: the `users` collection (in insertion order, `add`
appends) and the `portfolios` collection keyed by document id (the email). -/
structure DB where
  users : List UserDoc
  portfolios : String → Option PortfolioDoc

/-- A value stored in `st.session_state`. -/
inductive SVal where
  | bool (b : Bool)
  | str (s : String)
  | null
  | stocks (l : List Stock)
deriving DecidableEq

/-- `st.session_state`: a Python dict modelled as an association list. -/
def SessionState : Type := List (String × SVal)

/-- Dict assignment `st.session_state[k] = v`: replace the binding in place,
or append a new one. -/
def setKey : SessionState → String → SVal → SessionState
  | [], k, v => [(k, v)]
  | (k0, v0) :: rest, k, v =>
      if k0 == k then (k, v) :: rest else (k0, v0) :: setKey rest k v

/-- Dict lookup `st.session_state[k]` (`none` when the key is absent). -/
def getKey (st : SessionState) (k : String) : Option SVal :=
  (st.find? (fun p => p.1 == k)).map Prod.snd

/-- `hash_password` (line 51-52): `hashlib.sha256(password.encode()).hexdigest()`.
The SHA-256 hex digest itself is external library code, taken here as the
abstract parameter `sha256_hexdigest`. -/
def hash_password (sha256_hexdigest : String → String) (password : String) :
    String :=
  sha256_hexdigest password

/-- The query `db.collection("users").where("email", "==", email).limit(1).stream()`
followed by `next(user_doc, None)` (lines 64-65 and 75-76): the first user
document whose email field equals `email`, if any. -/
def firstUserWithEmail (db : DB) (email : String) : Option UserDoc :=
  db.users.find? (fun u => u.email == email)

/-- `login` (lines 63-71). Returns the Python return value and the session
state after the call (the state is unchanged on failure). -/
def login (sha256_hexdigest : String → String) (db : DB) (st : SessionState)
    (email password : String) : Bool × SessionState :=
  match firstUserWithEmail db email with
  | some user =>
      if user.password == hash_password sha256_hexdigest password then
        (true,
          setKey (setKey (setKey st "authenticated" (SVal.bool true))
            "user_email" (SVal.str email)) "logged_in" (SVal.bool true))
      else (false, st)
  | none => (false, st)

/-- `register` (lines 73-84). Returns the Python return value and the
database after the call (`add` appends one document to `users`). -/
def register (sha256_hexdigest : String → String) (db : DB)
    (email password phone : String) : Bool × DB :=
  let password_hash := hash_password sha256_hexdigest password
  match firstUserWithEmail db email with
  | some _ => (false, db)
  | none =>
      (true,
        { db with
          users := db.users ++
            [{ email := email, password := password_hash, phone := phone,
               plan := "Free" }] })

/-- `st.session_state.clear()` (line 91). -/
def clearSession (_ : SessionState) : SessionState := []

/-- `logout` (lines 86-92): four assignments, then `clear()` (the final
`st.rerun()` only restarts the script). -/
def logout (st : SessionState) : SessionState :=
  let st1 := setKey st "authenticated" (SVal.bool false)
  let st2 := setKey st1 "user_email" SVal.null
  let st3 := setKey st2 "logged_in" (SVal.bool false)
  let st4 := setKey st3 "portfolio" (SVal.stocks [])
  clearSession st4

/-- `fetch_portfolio` (lines 95-100): the `stocks` field of the portfolio
document at id `email`, with `[]` when the document does not exist
(`portfolio_doc.exists` is false) or has no such field (`.get` default). -/
def fetch_portfolio (db : DB) (email : String) : List Stock :=
  match db.portfolios email with
  | some doc => doc.stocks.getD []
  | none => []

/-- `save_portfolio` (lines 102-103): overwrite the document at id `email`. -/
def save_portfolio (db : DB) (email : String) (portfolio : List Stock) : DB :=
  { db with
    portfolios := fun k =>
      if k == email then some { stocks := some portfolio } else db.portfolios k }

/-- A calendar date: `month` is a linear month index (so consecutive months
are consecutive integers and the month-end date of month `m` is identified
with `m`), `day` the day within the month. Series from `yfinance` are in
chronological order, so positional `last` below is the latest entry. -/
structure Date where
  month : Int
  day : Nat
deriving DecidableEq

/-- The dataframe returned by `yf.Ticker(t).history(period=p)`, restricted to
the one column the program reads: `Close`, a date-indexed series of prices. -/
structure HistoryFrame (α : Type) where
  Close : List (Date × α)
deriving DecidableEq

/-- `calculate_current_value` (lines 105-111): the whole body runs in a
`try`, so a raising history call or an empty `Close` column (`.iloc[-1]` on
an empty series raises `IndexError`) yields `None`. -/
def calculate_current_value {α : Type} [Mul α]
    (history : String → String → Except String (HistoryFrame α))
    (ticker : String) (quantity : α) : Option α :=
  match history (ticker ++ ".KA") "1d" with
  | Except.error _ => none
  | Except.ok frame =>
      match (frame.Close.map Prod.snd).getLast? with
      | none => none
      | some current_price => some (current_price * quantity)

/-- `fetch_stock_data` (lines 114-117): `stock.history(period=period)["Close"]`
with default period `"5y"`, inside the caller's `try`. -/
def fetch_stock_data {α : Type}
    (history : String → String → Except String (HistoryFrame α))
    (ticker : String) (period : String := "5y") :
    Except String (List (Date × α)) :=
  (history ticker period).map HistoryFrame.Close

/-- The months of the entries of a series (the index of line 119's input,
projected to months). -/
def seriesMonths {α : Type} (data : List (Date × α)) : List Int :=
  data.map (fun x => x.1.month)

/-- The value of resampling bin `m`: the last entry of month `m`, `none`
(pandas `NaN`) when the month has no entry. -/
def monthClose {α : Type} (data : List (Date × α)) (m : Int) : Option α :=
  ((data.filter (fun x => x.1.month == m)).map Prod.snd).getLast?

/-- `resample_monthly` (lines 119-120): `data.resample("M").last()`. pandas
builds one month-end bin for every month from the first to the last month of
the index and takes the last entry of each bin (`NaN`, here `none`, for a
month with no entries). Output pairs are (month-end month index, value). -/
def resample_monthly {α : Type} (data : List (Date × α)) :
    List (Int × Option α) :=
  match seriesMonths data with
  | [] => []
  | m0 :: ms =>
      let lo := ms.foldl min m0
      let hi := ms.foldl max m0
      (List.range (hi - lo + 1).toNat).map
        (fun (i : Nat) => (lo + (i : Int), monthClose data (lo + (i : Int))))

/-- A fitted SARIMAX results object: all the program uses of it is its
`forecast(steps=...)` method, abstracted as a function of `steps` that can
also raise. -/
structure SARIMAXModel (α : Type) where
  forecastResult : Nat → Except String (List α)

/-- The arguments the program passes to the `SARIMAX` constructor followed by
`.fit(disp=False)` (line 123): the endogenous monthly series and the two
order tuples. -/
structure SARIMAXSpec (α : Type) where
  endog : List (Int × Option α)
  order : Nat × Nat × Nat
  seasonal_order : Nat × Nat × Nat × Nat

/-- `fit_sarimax` (lines 122-124): build the model with fixed orders
`(1,1,1)` and `(1,1,1,12)` and fit it. `fitModel` is the external
`SARIMAX(...).fit(disp=False)` call, which can raise. -/
def fit_sarimax {α : Type}
    (fitModel : SARIMAXSpec α → Except String (SARIMAXModel α))
    (data : List (Int × Option α)) : Except String (SARIMAXModel α) :=
  fitModel { endog := data, order := (1, 1, 1), seasonal_order := (1, 1, 1, 12) }

/-- `forecast` (lines 126-127): `model.forecast(steps=steps)`. -/
def forecast {α : Type} (model : SARIMAXModel α) (steps : Nat) :
    Except String (List α) :=
  model.forecastResult steps

/-- `forecast_steps` (line 219). -/
def forecast_steps : Nat := 6

/-- `pd.date_range(start, periods=periods, freq="M")` for a month-end
`start`: `periods` consecutive month-end dates beginning at `start`. -/
def date_range_M (start : Int) (periods : Nat) : List Int :=
  (List.range periods).map (fun (i : Nat) => start + (i : Int))

/-- Python `future_forecast[-1] > monthly_data.iloc[-1]` (line 230) where the
right-hand side can be `NaN` (an empty bin): any comparison with `NaN` is
false. -/
def seriesGT {α : Type} [LinearOrder α] (x : α) (y : Option α) : Bool :=
  match y with
  | some v => decide (v < x)
  | none => false

/-- What the handler body of line 211 displays when the fetched series is
empty and the recommendation step then reads the never-assigned
`future_forecast` (line 230): the `NameError` message (Python renders the
variable name in quotes). -/
def nameErrorMsg : String := "name future_forecast is not defined"

/-- The `ValueError` message of `pd.DataFrame` (line 222) on columns of
different lengths. -/
def lengthErrorMsg : String := "All arrays must be of the same length"

/-- The `IndexError` message of `iloc[-1]` / `[-1]` on an empty series. -/
def indexErrorMsg : String := "index -1 is out of bounds for axis 0 with size 0"

/-- One Streamlit output of the "Generate Forecast" handler, in order:
`st.error` messages, the current-price and progress writes (lines 215-216),
the forecast table (line 226), the recommendation (lines 230-233, `true` for
the upward-trend text) and the chart (line 258). -/
inductive Display (α : Type) where
  | errorMsg (msg : String)
  | currentPrice (price : α)
  | generating
  | table (rows : List (Int × α))
  | recommendation (upward : Bool)
  | chart
deriving DecidableEq

/-- The body of `if st.button("Generate Forecast")` (lines 208-260): one
`try` around fetch, fit, forecast, table, recommendation and chart, whose
`except` displays `"Error: " ++ e` after whatever was already displayed.
When the fetched series is empty, only `st.error("Invalid ticker symbol.")`
runs inside the `if`, and the recommendation step then raises `NameError`
on the never-assigned `future_forecast`. -/
def generate_forecast_handler {α : Type} [LinearOrder α]
    (history : String → String → Except String (HistoryFrame α))
    (fitModel : SARIMAXSpec α → Except String (SARIMAXModel α))
    (user_input : String) : List (Display α) :=
  let ticker := user_input ++ ".KA"
  match fetch_stock_data history ticker with
  | Except.error e => [Display.errorMsg ("Error: " ++ e)]
  | Except.ok df =>
      if df.isEmpty then
        [Display.errorMsg "Invalid ticker symbol.",
         Display.errorMsg ("Error: " ++ nameErrorMsg)]
      else
        match (df.map Prod.snd).getLast? with
        | none => [Display.errorMsg ("Error: " ++ indexErrorMsg)]
        | some current_price =>
            let shown := [Display.currentPrice current_price, Display.generating]
            let monthly_data := resample_monthly df
            match fit_sarimax fitModel monthly_data with
            | Except.error e => shown ++ [Display.errorMsg ("Error: " ++ e)]
            | Except.ok model =>
                match forecast model forecast_steps with
                | Except.error e => shown ++ [Display.errorMsg ("Error: " ++ e)]
                | Except.ok future_forecast =>
                    match monthly_data.getLast? with
                    | none => shown ++ [Display.errorMsg ("Error: " ++ indexErrorMsg)]
                    | some lastBin =>
                        let future_dates :=
                          (date_range_M lastBin.1 (forecast_steps + 1)).drop 1
                        if future_dates.length ≠ future_forecast.length then
                          shown ++ [Display.errorMsg ("Error: " ++ lengthErrorMsg)]
                        else
                          let shown := shown ++
                            [Display.table (future_dates.zip future_forecast)]
                          match future_forecast.getLast? with
                          | none =>
                              shown ++ [Display.errorMsg ("Error: " ++ indexErrorMsg)]
                          | some lastF =>
                              shown ++
                                [Display.recommendation (seriesGT lastF lastBin.2),
                                 Display.chart]

/-! ### Session-state dictionary lemmas -/

theorem getKey_cons (k0 : String) (v0 : SVal) (rest : SessionState)
    (k2 : String) :
    getKey ((k0, v0) :: rest) k2 =
      if k0 = k2 then some v0 else getKey rest k2 := by
  by_cases h : k0 = k2
  · rw [getKey, List.find?_cons_of_pos _ (by simpa [beq_iff_eq] using h),
      if_pos h]
    rfl
  · rw [getKey, List.find?_cons_of_neg _ (by simpa [beq_iff_eq] using h),
      if_neg h]
    rfl

theorem getKey_setKey_self (st : SessionState) (k : String) (v : SVal) :
    getKey (setKey st k v) k = some v := by
  induction st with
  | nil => simp [setKey, getKey_cons]
  | cons p rest ih =>
      obtain ⟨k0, v0⟩ := p
      by_cases h : k0 = k
      · subst h
        simp [setKey, getKey_cons]
      · simp [setKey, beq_iff_eq, h, getKey_cons, ih]

theorem getKey_setKey_of_ne (st : SessionState) {k k2 : String} (v : SVal)
    (h : k2 ≠ k) : getKey (setKey st k v) k2 = getKey st k2 := by
  induction st with
  | nil => simp [setKey, getKey_cons, Ne.symm h]
  | cons p rest ih =>
      obtain ⟨k0, v0⟩ := p
      by_cases h0 : k0 = k
      · subst h0
        simp [setKey, getKey_cons, Ne.symm h]
      · simp [setKey, beq_iff_eq, h0, getKey_cons, ih]

/-! ### The claims about authentication and the session -/

/-- C2: registration is rejected on a duplicate email (returning `False` and
leaving the database unchanged), and otherwise appends exactly one user
document with the email, the password digest (not the plaintext), the phone
and plan `"Free"`, returning `True`. -/
theorem C2_register_duplicate_or_insert (sha : String → String) (db : DB)
    (email password phone : String) :
    ((∃ u ∈ db.users, u.email = email) →
      register sha db email password phone = (false, db)) ∧
    ((¬ ∃ u ∈ db.users, u.email = email) →
      register sha db email password phone =
        (true,
          { db with
            users := db.users ++
              [{ email := email, password := hash_password sha password,
                 phone := phone, plan := "Free" }] })) := by
  constructor
  · rintro ⟨u, hu, he⟩
    have hsome : (firstUserWithEmail db email).isSome := by
      unfold firstUserWithEmail
      rw [List.find?_isSome]
      exact ⟨u, hu, by simp [he]⟩
    unfold register
    cases hf : firstUserWithEmail db email with
    | some u2 => simp [hf]
    | none => rw [hf] at hsome; simp at hsome
  · intro hne
    have hf : firstUserWithEmail db email = none := by
      unfold firstUserWithEmail
      rw [List.find?_eq_none]
      intro u hu
      simp only [beq_iff_eq]
      exact fun he => hne ⟨u, hu, he⟩
    unfold register
    simp [hf]

def c2Sha : String → String := fun s => "digest-" ++ s

def c2Db : DB :=
  { users := [{ email := "a@x", password := "h", phone := "p", plan := "Free" }],
    portfolios := fun _ => none }

/-- C2, witnessed at concrete inputs: a duplicate registration is refused and
a fresh one appends the hashed document. -/
theorem C2_register_duplicate_or_insert_witness :
    register c2Sha c2Db "a@x" "pw" "ph" = (false, c2Db) ∧
    register c2Sha c2Db "b@x" "pw" "ph" =
      (true,
        { c2Db with
          users := c2Db.users ++
            [{ email := "b@x", password := hash_password c2Sha "pw",
               phone := "ph", plan := "Free" }] }) :=
  ⟨(C2_register_duplicate_or_insert c2Sha c2Db "a@x" "pw" "ph").1 (by decide),
   (C2_register_duplicate_or_insert c2Sha c2Db "b@x" "pw" "ph").2 (by decide)⟩

def c3Sha : String → String := fun s => s

def c3Db : DB :=
  { users := [{ email := "a@x", password := "stale", phone := "p", plan := "Free" },
              { email := "a@x", password := "pw", phone := "p", plan := "Free" }],
    portfolios := fun _ => none }

/-- C3, refuted as stated: with two stored documents sharing the email
`"a@x"`, the first with a stale password digest and the second with digest
`hash_password c3Sha "pw"`, a matching document exists but `login` checks
only the first (`limit(1)`) and returns `False`. Nothing about the hash
function is used: any digest function with `c3Sha "pw" ≠ "stale"` does it. -/
theorem C3_login_iff_cex :
    ¬(((login c3Sha c3Db [] "a@x" "pw").1 = true) ↔
      ∃ u ∈ c3Db.users,
        u.email = "a@x" ∧ u.password = hash_password c3Sha "pw") := by
  decide

/-- C3, amended: assuming no two stored user documents share an email, login
returns `True` iff a stored document with that email has the supplied
password's digest, and on success the session flags are set. -/
theorem C3_login_amended (sha : String → String) (db : DB) (st : SessionState)
    (email password : String)
    (huniq : ∀ u ∈ db.users, ∀ v ∈ db.users, u.email = v.email → u = v) :
    ((login sha db st email password).1 = true ↔
      ∃ u ∈ db.users,
        u.email = email ∧ u.password = hash_password sha password) ∧
    ((login sha db st email password).1 = true →
      getKey (login sha db st email password).2 "authenticated" =
          some (SVal.bool true) ∧
      getKey (login sha db st email password).2 "user_email" =
          some (SVal.str email) ∧
      getKey (login sha db st email password).2 "logged_in" =
          some (SVal.bool true)) := by
  cases hf : firstUserWithEmail db email with
  | none =>
      have hnone : ∀ u ∈ db.users, u.email ≠ email := by
        have := (List.find?_eq_none).mp hf
        intro u hu
        simpa [beq_iff_eq] using this u hu
      constructor
      · simp only [login, hf]
        constructor
        · intro h; exact absurd h (by simp)
        · rintro ⟨u, hu, he, _⟩; exact absurd he (hnone u hu)
      · simp [login, hf]
  | some u =>
      have hmem : u ∈ db.users := List.mem_of_find?_eq_some hf
      have hue : u.email = email := by
        have := List.find?_some hf
        simpa [beq_iff_eq] using this
      by_cases hpw : u.password = hash_password sha password
      · have htrue : (login sha db st email password).1 = true := by
          simp [login, hf, hpw]
        have hsnd : (login sha db st email password).2 =
            setKey (setKey (setKey st "authenticated" (SVal.bool true))
              "user_email" (SVal.str email)) "logged_in" (SVal.bool true) := by
          simp [login, hf, hpw]
        refine ⟨⟨fun _ => ⟨u, hmem, hue, hpw⟩, fun _ => htrue⟩, fun _ => ?_⟩
        rw [hsnd]
        refine ⟨?_, ?_, ?_⟩
        · rw [getKey_setKey_of_ne _ _ (by decide),
            getKey_setKey_of_ne _ _ (by decide), getKey_setKey_self]
        · rw [getKey_setKey_of_ne _ _ (by decide), getKey_setKey_self]
        · rw [getKey_setKey_self]
      · have hfalse : (login sha db st email password).1 = false := by
          simp [login, hf, beq_iff_eq, hpw]
        rw [hfalse]
        constructor
        · constructor
          · intro h; exact absurd h (by simp)
          · rintro ⟨v, hv, hve, hvp⟩
            have hvu : v = u := huniq v hv u hmem (hve.trans hue.symm)
            exact absurd (hvu ▸ hvp) hpw
        · intro h; exact absurd h (by simp)


def c3wDb : DB :=
  { users := [{ email := "a@x", password := "pw", phone := "p", plan := "Free" }],
    portfolios := fun _ => none }

/-- C3 amended, witnessed at a concrete database with one stored user. -/
theorem C3_login_amended_witness :
    ((login c3Sha c3wDb [] "a@x" "pw").1 = true ↔
      ∃ u ∈ c3wDb.users,
        u.email = "a@x" ∧ u.password = hash_password c3Sha "pw") ∧
    ((login c3Sha c3wDb [] "a@x" "pw").1 = true →
      getKey (login c3Sha c3wDb [] "a@x" "pw").2 "authenticated" =
          some (SVal.bool true) ∧
      getKey (login c3Sha c3wDb [] "a@x" "pw").2 "user_email" =
          some (SVal.str "a@x") ∧
      getKey (login c3Sha c3wDb [] "a@x" "pw").2 "logged_in" =
          some (SVal.bool true)) :=
  C3_login_amended c3Sha c3wDb [] "a@x" "pw" (by decide)

/-- C6: `logout` first overwrites the four session keys (`authenticated`
`False`, `user_email` `None`, `logged_in` `False`, `portfolio` `[]`), and the
final `clear()` then empties the whole session state, so no key set by login
or the portfolio handlers survives. -/
theorem C6_logout_clears_session (st : SessionState) :
    (let pre := setKey (setKey (setKey (setKey st "authenticated"
        (SVal.bool false)) "user_email" SVal.null) "logged_in"
        (SVal.bool false)) "portfolio" (SVal.stocks []);
      getKey pre "authenticated" = some (SVal.bool false) ∧
      getKey pre "user_email" = some SVal.null ∧
      getKey pre "logged_in" = some (SVal.bool false) ∧
      getKey pre "portfolio" = some (SVal.stocks [])) ∧
    logout st = [] ∧ ∀ k, getKey (logout st) k = none := by
  refine ⟨⟨?_, ?_, ?_, ?_⟩, rfl, fun k => rfl⟩
  · rw [getKey_setKey_of_ne _ _ (by decide), getKey_setKey_of_ne _ _ (by decide),
      getKey_setKey_of_ne _ _ (by decide), getKey_setKey_self]
  · rw [getKey_setKey_of_ne _ _ (by decide), getKey_setKey_of_ne _ _ (by decide),
      getKey_setKey_self]
  · rw [getKey_setKey_of_ne _ _ (by decide), getKey_setKey_self]
  · rw [getKey_setKey_self]

/-- C8: `fetch_portfolio` returns the `stocks` list when the document exists
and has the field, and the empty list both when the document does not exist
and when it lacks the field. -/
theorem C8_fetch_portfolio_total (db : DB) (email : String) (sl : List Stock) :
    (db.portfolios email = none → fetch_portfolio db email = []) ∧
    (db.portfolios email = some { stocks := some sl } →
      fetch_portfolio db email = sl) ∧
    (db.portfolios email = some { stocks := none } →
      fetch_portfolio db email = []) := by
  refine ⟨fun h => ?_, fun h => ?_, fun h => ?_⟩ <;> simp [fetch_portfolio, h]

/-- C9: when no stored user document matches the credentials, `login`
returns `False` and the session state is exactly the one passed in. -/
theorem C9_failed_login_keeps_session (sha : String → String) (db : DB)
    (st : SessionState) (email password : String)
    (h : ∀ u ∈ db.users,
      ¬(u.email = email ∧ u.password = hash_password sha password)) :
    login sha db st email password = (false, st) := by
  unfold login
  cases hf : firstUserWithEmail db email with
  | none => rfl
  | some u =>
      have hmem : u ∈ db.users := List.mem_of_find?_eq_some hf
      have hue : u.email = email := by
        have := List.find?_some hf
        simpa [beq_iff_eq] using this
      have hpw : u.password ≠ hash_password sha password :=
        fun hc => h u hmem ⟨hue, hc⟩
      simp [beq_iff_eq, hpw]

def c9Db : DB :=
  { users := [{ email := "b@x", password := "zz", phone := "p", plan := "Free" }],
    portfolios := fun _ => none }

/-- C9, witnessed: a login with an unknown email leaves an empty session
empty. -/
theorem C9_failed_login_keeps_session_witness :
    login c3Sha c9Db [] "a@x" "pw" = (false, []) :=
  C9_failed_login_keeps_session c3Sha c9Db [] "a@x" "pw" (by decide)

/-- C10: starting from a database with no document for the email,
registration succeeds and a subsequent login with the same password succeeds,
because the stored digest is the deterministic `hash_password` of it. -/
theorem C10_register_login_roundtrip (sha : String → String) (db : DB)
    (st : SessionState) (email password phone : String)
    (h : ∀ u ∈ db.users, u.email ≠ email) :
    (register sha db email password phone).1 = true ∧
    (login sha (register sha db email password phone).2 st email password).1 =
      true := by
  have hf : firstUserWithEmail db email = none := by
    unfold firstUserWithEmail
    rw [List.find?_eq_none]
    intro u hu
    simpa [beq_iff_eq] using h u hu
  have hf2 : db.users.find? (fun u => u.email == email) = none := hf
  have husers : (register sha db email password phone).2.users =
      db.users ++
        [{ email := email, password := hash_password sha password,
           phone := phone, plan := "Free" }] := by
    simp [register, hf]
  have hfind : firstUserWithEmail (register sha db email password phone).2
      email =
      some { email := email, password := hash_password sha password,
             phone := phone, plan := "Free" } := by
    unfold firstUserWithEmail
    rw [husers, List.find?_append, hf2]
    simp [List.find?]
  constructor
  · simp [register, hf]
  · simp [login, hfind]

def c10Db : DB := { users := [], portfolios := fun _ => none }

/-- C10, witnessed: register then login on an empty users collection. -/
theorem C10_register_login_roundtrip_witness :
    (register c2Sha c10Db "a@x" "pw" "ph").1 = true ∧
    (login c2Sha (register c2Sha c10Db "a@x" "pw" "ph").2 [] "a@x" "pw").1 =
      true :=
  C10_register_login_roundtrip c2Sha c10Db [] "a@x" "pw" "ph" (by decide)

/-! ### Forecasting lemmas -/

theorem foldl_min_le (l : List Int) (a : Int) : l.foldl min a ≤ a := by
  induction l generalizing a with
  | nil => exact le_refl a
  | cons x t ih => exact le_trans (ih (min a x)) (min_le_left a x)

theorem le_foldl_max (l : List Int) (a : Int) : a ≤ l.foldl max a := by
  induction l generalizing a with
  | nil => exact le_refl a
  | cons x t ih => exact le_trans (le_max_left a x) (ih (max a x))

theorem foldl_min_le_of_mem {l : List Int} {x : Int} (a : Int) (h : x ∈ l) :
    l.foldl min a ≤ x := by
  induction l generalizing a with
  | nil => simp at h
  | cons y t ih =>
      rcases List.mem_cons.mp h with h | h
      · subst h
        exact le_trans (foldl_min_le t (min a x)) (min_le_right a x)
      · exact ih (min a y) h

theorem le_foldl_max_of_mem {l : List Int} {x : Int} (a : Int) (h : x ∈ l) :
    x ≤ l.foldl max a := by
  induction l generalizing a with
  | nil => simp at h
  | cons y t ih =>
      rcases List.mem_cons.mp h with h | h
      · subst h
        exact le_trans (le_max_right a x) (le_foldl_max t (max a x))
      · exact ih (max a y) h

/-- Every month present in the input indexes a bin of the resampled series,
and the bin holds the last entry of that month. -/
theorem mem_resample_of_mem_months {α : Type} {data : List (Date × α)}
    {m : Int} (h : m ∈ seriesMonths data) :
    (m, monthClose data m) ∈ resample_monthly data := by
  unfold resample_monthly
  cases hsm : seriesMonths data with
  | nil => rw [hsm] at h; simp at h
  | cons m0 ms =>
      rw [hsm] at h
      have h1 : ms.foldl min m0 ≤ m := by
        rcases List.mem_cons.mp h with h | h
        · rw [h]; exact foldl_min_le ms m0
        · exact foldl_min_le_of_mem m0 h
      have h2 : m ≤ ms.foldl max m0 := by
        rcases List.mem_cons.mp h with h | h
        · rw [h]; exact le_foldl_max ms m0
        · exact le_foldl_max_of_mem m0 h
      have hlt : (m - ms.foldl min m0).toNat <
          (ms.foldl max m0 - ms.foldl min m0 + 1).toNat := by omega
      simp only
      refine List.mem_map.mpr ⟨(m - ms.foldl min m0).toNat,
        List.mem_range.mpr hlt, ?_⟩
      have heq : ms.foldl min m0 + ((m - ms.foldl min m0).toNat : Int) = m := by
        omega
      rw [heq]

/-- A month present in the input has a last closing price (the bin is not
`NaN`). -/
theorem monthClose_isSome_of_mem {α : Type} {data : List (Date × α)} {m : Int}
    (h : m ∈ seriesMonths data) : ∃ v, monthClose data m = some v := by
  obtain ⟨x, hx, hxm⟩ := List.mem_map.mp h
  have hfil : x ∈ data.filter (fun y => y.1.month == m) :=
    List.mem_filter.mpr ⟨hx, by simp [hxm]⟩
  have hne : (data.filter (fun y => y.1.month == m)).map Prod.snd ≠ [] := by
    simp only [ne_eq, List.map_eq_nil_iff]
    exact List.ne_nil_of_mem hfil
  obtain ⟨v, hv⟩ := Option.isSome_iff_exists.mp (List.getLast?_isSome.mpr hne)
  exact ⟨v, hv⟩

theorem resample_monthly_ne_nil {α : Type} {data : List (Date × α)}
    (h : data ≠ []) : resample_monthly data ≠ [] := by
  unfold resample_monthly
  cases hsm : seriesMonths data with
  | nil =>
      exact absurd (by simpa [seriesMonths, List.map_eq_nil_iff] using hsm) h
  | cons m0 ms =>
      have h1 : ms.foldl min m0 ≤ m0 := foldl_min_le ms m0
      have h2 : m0 ≤ ms.foldl max m0 := le_foldl_max ms m0
      simp only [ne_eq, List.map_eq_nil_iff, List.range_eq_nil]
      omega

/-- The `pd.date_range(..., periods=7, freq="M")[1:]` of the handler
(line 221): the six month ends after `s`. -/
theorem drop_one_date_range (s : Int) :
    (date_range_M s (forecast_steps + 1)).drop 1 =
      [s + 1, s + 2, s + 3, s + 4, s + 5, s + 6] := by
  have h7 : List.range (forecast_steps + 1) = [0, 1, 2, 3, 4, 5, 6] := rfl
  simp [date_range_M, h7]

/-! ### The claims about forecasting -/

/-- C1: `fit_sarimax` passes any data to the external library with the fixed
orders `(1,1,1)` and `(1,1,1,12)`, and `forecast` is exactly
`model.forecast(steps=steps)` with no further transformation. -/
theorem C1_sarimax_passthrough :
    ∀ (α : Type) (fitModel : SARIMAXSpec α → Except String (SARIMAXModel α))
      (data : List (Int × Option α)),
      fit_sarimax fitModel data =
        fitModel { endog := data, order := (1, 1, 1),
                   seasonal_order := (1, 1, 1, 12) } ∧
      ∀ (model : SARIMAXModel α) (steps : Nat),
        forecast model steps = model.forecastResult steps :=
  fun _ _ _ => ⟨rfl, fun _ _ => rfl⟩

/-- C7: `fetch_stock_data` is the `Close` column of the market-data history
for the requested period (default `"5y"`), and `resample_monthly` maps every
month present in its input to the last closing price of that month. -/
theorem C7_close_column_and_monthly_last (α : Type)
    (history : String → String → Except String (HistoryFrame α))
    (ticker period : String) (data : List (Date × α)) (m : Int) :
    fetch_stock_data history ticker =
      (history ticker "5y").map HistoryFrame.Close ∧
    fetch_stock_data history ticker period =
      (history ticker period).map HistoryFrame.Close ∧
    monthClose data m =
      ((data.filter (fun x => x.1.month == m)).map Prod.snd).getLast? ∧
    (m ∈ seriesMonths data →
      (m, monthClose data m) ∈ resample_monthly data ∧
      ∃ v, monthClose data m = some v) := by
  refine ⟨rfl, rfl, rfl, fun h => ⟨mem_resample_of_mem_months h,
    monthClose_isSome_of_mem h⟩⟩

def c7Data : List (Date × Int) :=
  [({ month := 0, day := 3 }, 10), ({ month := 0, day := 20 }, 11),
   ({ month := 2, day := 5 }, 30)]

def c7Hist : String → String → Except String (HistoryFrame Int) :=
  fun _ _ => Except.ok { Close := c7Data }

/-- C7, witnessed on a three-entry series spanning months 0..2. -/
theorem C7_close_column_and_monthly_last_witness :
    fetch_stock_data c7Hist "HUBC.KA" =
      (c7Hist "HUBC.KA" "5y").map HistoryFrame.Close ∧
    fetch_stock_data c7Hist "HUBC.KA" "1y" =
      (c7Hist "HUBC.KA" "1y").map HistoryFrame.Close ∧
    monthClose c7Data 0 =
      ((c7Data.filter (fun x => x.1.month == 0)).map Prod.snd).getLast? ∧
    (0 ∈ seriesMonths c7Data →
      (0, monthClose c7Data 0) ∈ resample_monthly c7Data ∧
      ∃ v, monthClose c7Data 0 = some v) :=
  C7_close_column_and_monthly_last Int c7Hist "HUBC.KA" "1y" c7Data 0

/-- C4: on a non-empty fetched series, when the external fit and forecast
calls return (with the statsmodels contract that `forecast(steps)` has
`steps` values), the handler displays a table of exactly 6 forecast values
paired with the 6 consecutive month-end dates strictly after the last date
of the monthly-resampled data. -/
theorem C4_six_month_horizon (α : Type) [LinearOrder α]
    (history : String → String → Except String (HistoryFrame α))
    (fitModel : SARIMAXSpec α → Except String (SARIMAXModel α))
    (user_input : String) (df : List (Date × α)) (model : SARIMAXModel α)
    (fs : List α)
    (hdf : fetch_stock_data history (user_input ++ ".KA") = Except.ok df)
    (hne : df ≠ [])
    (hfit : fit_sarimax fitModel (resample_monthly df) = Except.ok model)
    (hfc : forecast model forecast_steps = Except.ok fs)
    (hlen : fs.length = forecast_steps) :
    ∃ lastM lastV rows,
      (resample_monthly df).getLast? = some (lastM, lastV) ∧
      rows = [lastM + 1, lastM + 2, lastM + 3, lastM + 4, lastM + 5,
        lastM + 6].zip fs ∧
      Display.table rows ∈ generate_forecast_handler history fitModel user_input ∧
      rows.map Prod.snd = fs ∧
      rows.length = forecast_steps ∧
      rows.map Prod.fst =
        [lastM + 1, lastM + 2, lastM + 3, lastM + 4, lastM + 5, lastM + 6] ∧
      ∀ r ∈ rows, lastM < r.1 := by
  obtain ⟨⟨lastM, lastV⟩, hlast⟩ : ∃ x, (resample_monthly df).getLast? = some x :=
    Option.isSome_iff_exists.mp
      (List.getLast?_isSome.mpr (resample_monthly_ne_nil hne))
  obtain ⟨cp, hcp⟩ : ∃ x, (df.map Prod.snd).getLast? = some x :=
    Option.isSome_iff_exists.mp
      (List.getLast?_isSome.mpr (by simpa [List.map_eq_nil_iff] using hne))
  obtain ⟨lastF, hlastF⟩ : ∃ x, fs.getLast? = some x :=
    Option.isSome_iff_exists.mp (List.getLast?_isSome.mpr
      (by intro hf0; rw [hf0] at hlen; simp [forecast_steps] at hlen))
  have hempty : df.isEmpty = false := by
    cases df with
    | nil => exact absurd rfl hne
    | cons a l => rfl
  have hdates : (date_range_M lastM (forecast_steps + 1)).drop 1 =
      [lastM + 1, lastM + 2, lastM + 3, lastM + 4, lastM + 5, lastM + 6] :=
    drop_one_date_range lastM
  have hdlen :
      ([lastM + 1, lastM + 2, lastM + 3, lastM + 4, lastM + 5, lastM + 6]
        : List Int).length = fs.length := by
    rw [hlen]; rfl
  have hhandler : generate_forecast_handler history fitModel user_input =
      [Display.currentPrice cp, Display.generating,
       Display.table ([lastM + 1, lastM + 2, lastM + 3, lastM + 4, lastM + 5,
         lastM + 6].zip fs),
       Display.recommendation (seriesGT lastF lastV), Display.chart] := by
    simp only [generate_forecast_handler, hdf, hempty, Bool.false_eq_true,
      if_false, hcp, hfit, hfc, hlast, hdates, hdlen, ne_eq,
      not_true_eq_false, hlastF]
    rfl
  refine ⟨lastM, lastV, _, hlast, rfl, ?_, ?_, ?_, ?_, ?_⟩
  · rw [hhandler]; simp
  · exact List.map_snd_zip _ _ (le_of_eq hdlen.symm)
  · rw [List.length_zip, hdlen, hlen]; simp
  · exact List.map_fst_zip _ _ (le_of_eq hdlen)
  · intro r hr
    have hr1 := (List.of_mem_zip hr).1
    rcases r with ⟨d, v⟩
    simp only [List.mem_cons, List.not_mem_nil, or_false] at hr1
    rcases hr1 with h | h | h | h | h | h <;> (rw [h]; omega)

def c4Data : List (Date × Int) :=
  [({ month := 0, day := 31 }, 5), ({ month := 1, day := 28 }, 6)]

def c4Hist : String → String → Except String (HistoryFrame Int) :=
  fun _ _ => Except.ok { Close := c4Data }

def c4Model : SARIMAXModel Int :=
  { forecastResult := fun n => Except.ok (List.replicate n 7) }

def c4Fit : SARIMAXSpec Int → Except String (SARIMAXModel Int) :=
  fun _ => Except.ok c4Model

/-- C4, witnessed on a two-month series and a model forecasting a constant. -/
theorem C4_six_month_horizon_witness :
    ∃ lastM lastV rows,
      (resample_monthly c4Data).getLast? = some (lastM, lastV) ∧
      rows = [lastM + 1, lastM + 2, lastM + 3, lastM + 4, lastM + 5,
        lastM + 6].zip [7, 7, 7, 7, 7, 7] ∧
      Display.table rows ∈ generate_forecast_handler c4Hist c4Fit "HUBC" ∧
      rows.map Prod.snd = [7, 7, 7, 7, 7, 7] ∧
      rows.length = forecast_steps ∧
      rows.map Prod.fst =
        [lastM + 1, lastM + 2, lastM + 3, lastM + 4, lastM + 5, lastM + 6] ∧
      ∀ r ∈ rows, lastM < r.1 :=
  C4_six_month_horizon Int c4Hist c4Fit "HUBC" c4Data c4Model
    [7, 7, 7, 7, 7, 7] rfl (by decide) rfl rfl rfl

/-- C5: every exception of the fetch, fit, forecast or recommendation step is
caught and displayed as `"Error: " ++ e` instead of propagating (on an empty
fetched series the recommendation step reads the never-assigned
`future_forecast`, so the handler shows the invalid-ticker error and then the
caught `NameError`), and `calculate_current_value` returns `none` on any
exception of its body. -/
theorem C5_generic_error_handling (α : Type) [LinearOrder α] [Mul α]
    (history : String → String → Except String (HistoryFrame α))
    (fitModel : SARIMAXSpec α → Except String (SARIMAXModel α))
    (user_input ticker : String) (q : α) (e : String) (df : List (Date × α))
    (model : SARIMAXModel α) :
    (history (user_input ++ ".KA") "5y" = Except.error e →
      generate_forecast_handler history fitModel user_input =
        [Display.errorMsg ("Error: " ++ e)]) ∧
    (fetch_stock_data history (user_input ++ ".KA") = Except.ok [] →
      generate_forecast_handler history fitModel user_input =
        [Display.errorMsg "Invalid ticker symbol.",
         Display.errorMsg ("Error: " ++ nameErrorMsg)]) ∧
    (fetch_stock_data history (user_input ++ ".KA") = Except.ok df → df ≠ [] →
      fit_sarimax fitModel (resample_monthly df) = Except.error e →
      (generate_forecast_handler history fitModel user_input).getLast? =
        some (Display.errorMsg ("Error: " ++ e))) ∧
    (fetch_stock_data history (user_input ++ ".KA") = Except.ok df → df ≠ [] →
      fit_sarimax fitModel (resample_monthly df) = Except.ok model →
      forecast model forecast_steps = Except.error e →
      (generate_forecast_handler history fitModel user_input).getLast? =
        some (Display.errorMsg ("Error: " ++ e))) ∧
    (history (ticker ++ ".KA") "1d" = Except.error e →
      calculate_current_value history ticker q = none) ∧
    (history (ticker ++ ".KA") "1d" = Except.ok { Close := [] } →
      calculate_current_value history ticker q = none) := by
  refine ⟨fun h1 => ?_, fun h2 => ?_, fun h3 hne hfit => ?_,
    fun h4 hne hfit hfc => ?_, fun h5 => ?_, fun h6 => ?_⟩
  · have hfetch : fetch_stock_data history (user_input ++ ".KA") =
        Except.error e := by rw [fetch_stock_data, h1]; rfl
    simp only [generate_forecast_handler, hfetch]
  · simp only [generate_forecast_handler, h2, List.isEmpty_nil, if_true]
  · obtain ⟨cp, hcp⟩ : ∃ x, (df.map Prod.snd).getLast? = some x :=
      Option.isSome_iff_exists.mp
        (List.getLast?_isSome.mpr (by simpa [List.map_eq_nil_iff] using hne))
    have hempty : df.isEmpty = false := by
      cases df with
      | nil => exact absurd rfl hne
      | cons a l => rfl
    simp only [generate_forecast_handler, h3, hempty, Bool.false_eq_true,
      if_false, hcp, hfit]
    rfl
  · obtain ⟨cp, hcp⟩ : ∃ x, (df.map Prod.snd).getLast? = some x :=
      Option.isSome_iff_exists.mp
        (List.getLast?_isSome.mpr (by simpa [List.map_eq_nil_iff] using hne))
    have hempty : df.isEmpty = false := by
      cases df with
      | nil => exact absurd rfl hne
      | cons a l => rfl
    simp only [generate_forecast_handler, h4, hempty, Bool.false_eq_true,
      if_false, hcp, hfit, hfc]
    rfl
  · simp only [calculate_current_value, h5]
  · simp only [calculate_current_value, h6]
    rfl

def c5ErrHist : String → String → Except String (HistoryFrame Int) :=
  fun _ _ => Except.error "boom"

def c5EmptyHist : String → String → Except String (HistoryFrame Int) :=
  fun _ _ => Except.ok { Close := [] }

def c5FailFit : SARIMAXSpec Int → Except String (SARIMAXModel Int) :=
  fun _ => Except.error "fit boom"

def c5FailModel : SARIMAXModel Int :=
  { forecastResult := fun _ => Except.error "forecast boom" }

def c5FailFcFit : SARIMAXSpec Int → Except String (SARIMAXModel Int) :=
  fun _ => Except.ok c5FailModel

/-- C5, witnessed in each failure scenario at concrete inputs. -/
theorem C5_generic_error_handling_witness :
    generate_forecast_handler c5ErrHist c4Fit "HUBC" =
      [Display.errorMsg ("Error: " ++ "boom")] ∧
    generate_forecast_handler c5EmptyHist c4Fit "HUBC" =
      [Display.errorMsg "Invalid ticker symbol.",
       Display.errorMsg ("Error: " ++ nameErrorMsg)] ∧
    (generate_forecast_handler c4Hist c5FailFit "HUBC").getLast? =
      some (Display.errorMsg ("Error: " ++ "fit boom")) ∧
    (generate_forecast_handler c4Hist c5FailFcFit "HUBC").getLast? =
      some (Display.errorMsg ("Error: " ++ "forecast boom")) ∧
    calculate_current_value c5ErrHist "HUBC" (3 : Int) = none ∧
    calculate_current_value c5EmptyHist "HUBC" (3 : Int) = none :=
  ⟨(C5_generic_error_handling Int c5ErrHist c4Fit "HUBC" "HUBC" 3 "boom" []
      c4Model).1 rfl,
   (C5_generic_error_handling Int c5EmptyHist c4Fit "HUBC" "HUBC" 3 "x" []
      c4Model).2.1 rfl,
   (C5_generic_error_handling Int c4Hist c5FailFit "HUBC" "HUBC" 3 "fit boom"
      c4Data c4Model).2.2.1 rfl (by decide) rfl,
   (C5_generic_error_handling Int c4Hist c5FailFcFit "HUBC" "HUBC" 3
      "forecast boom" c4Data c5FailModel).2.2.2.1 rfl (by decide) rfl rfl,
   (C5_generic_error_handling Int c5ErrHist c4Fit "HUBC" "HUBC" 3 "boom" []
      c4Model).2.2.2.2.1 rfl,
   (C5_generic_error_handling Int c5EmptyHist c4Fit "HUBC" "HUBC" 3 "x" []
      c4Model).2.2.2.2.2 rfl⟩

end PSXForecast
